import Mathlib

/-!
Verification of the database-connectivity layer (src/api/common/src):
the CRUD engine (crud.py), the connector base class and vault
(connectorDB.py), and the connector registry (connector_manager.py).

Python dictionaries are modelled as insertion-ordered association lists
or as finite maps `String → Option PyValue`; Python exceptions are
modelled as explicit error results; database round trips are modelled as
an explicit trace of calls handed to a driver oracle.
-/

/-- Model of a Python runtime value as it appears in configuration
mappings and query parameters. -/
inductive PyValue where
  | pyNone : PyValue
  | pyInt : Int → PyValue
  | pyStr : String → PyValue
  | pyBool : Bool → PyValue
deriving DecidableEq

/-- One parameterized SQL statement handed to `execute_update` /
`execute_query`: the statement text and the parameter tuple. -/
structure SQLCall where
  query : String
  params : List PyValue
deriving DecidableEq

/-- Exceptions that can escape the CRUD engine: `ValueError` from the
empty-conditions validation, and re-raised `DatabaseError`. -/
inductive CrudError where
  | valueError : String → CrudError
  | databaseError : String → CrudError
deriving DecidableEq

/-- Python's `sep.join(parts)`. -/
def joinSep (sep : String) : List String → String
  | [] => ""
  | [x] => x
  | x :: y :: ys => x ++ sep ++ joinSep sep (y :: ys)

/-- The INSERT statement built by `CRUD.create`
(`f"INSERT INTO {table_name} ({columns}) VALUES ({placeholders})"`). -/
def createQuery (placeholder table : String) (data : List (String × PyValue)) : String :=
  let columns := joinSep ", " (data.map Prod.fst)
  let placeholders := joinSep ", " (List.replicate data.length placeholder)
  "INSERT INTO " ++ table ++ " (" ++ columns ++ ") VALUES (" ++ placeholders ++ ")"

/-- `CRUD.create` (crud.py lines 42-69).  `exec` is the connector's
`execute_update`; the second component of the result is the list of
database round trips performed. -/
def CRUD.create (placeholder : String) (exec : SQLCall → Except String Int)
    (table : String) (data : List (String × PyValue)) :
    Except CrudError Int × List SQLCall :=
  if data.isEmpty then (Except.ok 0, [])
  else
    let call : SQLCall := ⟨createQuery placeholder table data, data.map Prod.snd⟩
    match exec call with
    | Except.ok n => (Except.ok n, [call])
    | Except.error e => (Except.error (CrudError.databaseError e), [call])

/-- The UPDATE statement built by `CRUD.update`
(`f"UPDATE {table_name} SET {set_clauses} WHERE {condition_clauses}"`). -/
def updateQuery (placeholder table : String)
    (data conditions : List (String × PyValue)) : String :=
  let setClauses := data.map (fun p => p.1 ++ " = " ++ placeholder)
  let condClauses := conditions.map (fun p => p.1 ++ " = " ++ placeholder)
  "UPDATE " ++ table ++ " SET " ++ joinSep ", " setClauses ++
    " WHERE " ++ joinSep " AND " condClauses

/-- The parameter tuple of `CRUD.update`: data values first, then the
condition values appended. -/
def updateParams (data conditions : List (String × PyValue)) : List PyValue :=
  data.map Prod.snd ++ conditions.map Prod.snd

/-- Message of the `ValueError` raised by `CRUD.update` on empty conditions. -/
def updateEmptyCondMsg : String :=
  "Condições devem ser fornecidas para a operação UPDATE para evitar atualizações em massa não intencionais."

/-- Message of the `ValueError` raised by `CRUD.delete` on empty conditions. -/
def deleteEmptyCondMsg : String :=
  "Condições devem ser fornecidas para a operação DELETE para evitar exclusões em massa não intencionais."

/-- `CRUD.update` (crud.py lines 104-141): empty data returns 0 with no
round trip; empty conditions raises `ValueError`; otherwise one call to
`execute_update`. -/
def CRUD.update (placeholder : String) (exec : SQLCall → Except String Int)
    (table : String) (data conditions : List (String × PyValue)) :
    Except CrudError Int × List SQLCall :=
  if data.isEmpty then (Except.ok 0, [])
  else if conditions.isEmpty then
    (Except.error (CrudError.valueError updateEmptyCondMsg), [])
  else
    let call : SQLCall := ⟨updateQuery placeholder table data conditions,
                           updateParams data conditions⟩
    match exec call with
    | Except.ok n => (Except.ok n, [call])
    | Except.error e => (Except.error (CrudError.databaseError e), [call])

/-- The DELETE statement built by `CRUD.delete`. -/
def deleteQuery (placeholder table : String)
    (conditions : List (String × PyValue)) : String :=
  let condClauses := conditions.map (fun p => p.1 ++ " = " ++ placeholder)
  "DELETE FROM " ++ table ++ " WHERE " ++ joinSep " AND " condClauses

/-- `CRUD.delete` (crud.py lines 143-171): empty conditions raises
`ValueError`; otherwise one call to `execute_update`. -/
def CRUD.delete (placeholder : String) (exec : SQLCall → Except String Int)
    (table : String) (conditions : List (String × PyValue)) :
    Except CrudError Int × List SQLCall :=
  if conditions.isEmpty then
    (Except.error (CrudError.valueError deleteEmptyCondMsg), [])
  else
    let call : SQLCall := ⟨deleteQuery placeholder table conditions,
                           conditions.map Prod.snd⟩
    match exec call with
    | Except.ok n => (Except.ok n, [call])
    | Except.error e => (Except.error (CrudError.databaseError e), [call])

/-- Python whitespace test used by `str.strip()` (ASCII subset). -/
def isPySpace (c : Char) : Bool :=
  c == ' ' || c == '\t' || c == '\n' || c == '\r' || c == '\x0b' || c == '\x0c'

/-- Python `str.strip()`: remove leading and trailing whitespace. -/
def pyStrip (s : String) : String :=
  ⟨((s.data.dropWhile isPySpace).reverse.dropWhile isPySpace).reverse⟩

/-- Python `str.lower()` (ASCII letters). -/
def pyLowerChar (c : Char) : Char :=
  if 'A' ≤ c ∧ c ≤ 'Z' then Char.ofNat (c.toNat + 32) else c

/-- Python `str.lower()` applied characterwise. -/
def pyLower (s : String) : String := ⟨s.data.map pyLowerChar⟩

/-- Whether `pat` occurs at the very start of `s` (character lists). -/
def leadsWith : List Char → List Char → Bool
  | [], _ => true
  | _ :: _, [] => false
  | a :: as, b :: bs => a == b && leadsWith as bs

/-- Python `s.startswith(pre)`. -/
def strStartsWith (s pre : String) : Bool := leadsWith pre.data s.data

/-- Python slicing `s[n:]`. -/
def strDrop (s : String) (n : Nat) : String := ⟨s.data.drop n⟩

/-- The single-quote character, by code point so the source text stays
free of quote characters. -/
def sglQuote : String := ⟨[Char.ofNat 39]⟩

/-- Whether `pat` occurs somewhere inside `s` (character lists). -/
def containsSub : List Char → List Char → Bool
  | [], pat => pat.isEmpty
  | c :: rest, pat => leadsWith pat (c :: rest) || containsSub rest pat

/-- Value of one decimal digit. -/
def digitVal (c : Char) : Option Nat :=
  if '0' ≤ c ∧ c ≤ '9' then some (c.toNat - '0'.toNat) else none

/-- Accumulating decimal parse; fails on the first non-digit. -/
def parseDigitsAux : List Char → Nat → Option Nat
  | [], acc => some acc
  | c :: cs, acc =>
      match digitVal c with
      | some d => parseDigitsAux cs (acc * 10 + d)
      | none => none

/-- Model of Python `int(s)` on an already-stripped string: an optional
sign followed by at least one decimal digit; `none` on anything else. -/
def pyParseInt (s : String) : Option Int :=
  match s.data with
  | [] => none
  | '-' :: rest =>
      if rest.isEmpty then none else (parseDigitsAux rest 0).map (fun n => -(n : Int))
  | '+' :: rest =>
      if rest.isEmpty then none else (parseDigitsAux rest 0).map (fun n => (n : Int))
  | l => (parseDigitsAux l 0).map (fun n => (n : Int))

/-- `_safe_int_conversion` (connectorDB.py lines 131-145): `None`, blank
strings and unparsable values become `none`; ints (and bools, which are
ints in Python) convert. -/
def safe_int_conversion : PyValue → Option Int
  | PyValue.pyNone => none
  | PyValue.pyInt i => some i
  | PyValue.pyBool b => some (if b then 1 else 0)
  | PyValue.pyStr s =>
      let t := pyStrip s
      if t.data.isEmpty then none else pyParseInt t

/-- The `ColumnMetadata` dataclass (connectorDB.py lines 59-71). -/
structure ColumnMetadata where
  name : String
  type : String
  is_nullable : Bool := true
  default_value : Option String := none
  max_length : Option Int := none
  numeric_precision : Option Int := none
  numeric_scale : Option Int := none
  is_primary_key : Bool := false
  is_unique : Bool := false
  comment : Option String := none
deriving DecidableEq

/-- The `ForeignKeyMetadata` dataclass (connectorDB.py lines 74-82). -/
structure ForeignKeyMetadata where
  name : String
  column_name : String
  referenced_table_name : String
  referenced_column_name : String
  on_update : Option String := none
  on_delete : Option String := none
deriving DecidableEq

/-- One row of the Firebird column-introspection query
(`RDB$RELATION_FIELDS` joined with `RDB$FIELDS`), in select order. -/
structure FbColRow where
  fieldName : String
  fieldType : Int
  fieldLength : PyValue
  fieldPrecision : PyValue
  fieldScale : PyValue
  nullFlag : PyValue
  defaultSource : Option String
  description : Option String
  fieldSubType : Option Int
deriving DecidableEq

/-- Python `value == 0` for a dynamically typed value. -/
def pyEqZero : PyValue → Bool
  | PyValue.pyInt i => i == 0
  | PyValue.pyBool b => b == false
  | _ => false

/-- `str(x).strip() if x else None` applied to a nullable catalog string. -/
def pyStripOrNone : Option String → Option String
  | none => none
  | some s => if s.data.isEmpty then none else some (pyStrip s)

/-- `FirebirdConnector._map_firebird_type` (connectorDB.py lines 447-458). -/
def map_firebird_type (fieldType fieldSubType : Int) : String :=
  if fieldType = 23 then "BOOLEAN"
  else if fieldType = 7 ∧ fieldSubType = 1 then "BOOLEAN"
  else if fieldType = 7 then "SMALLINT"
  else if fieldType = 8 then "INTEGER"
  else if fieldType = 10 then "FLOAT"
  else if fieldType = 12 then "DATE"
  else if fieldType = 13 then "TIME"
  else if fieldType = 14 then "CHAR"
  else if fieldType = 16 then "BIGINT"
  else if fieldType = 27 then "DOUBLE PRECISION"
  else if fieldType = 35 then "TIMESTAMP"
  else if fieldType = 37 then "VARCHAR"
  else if fieldType = 261 then "BLOB"
  else "UNKNOWN"

/-- The per-row column assembly of `FirebirdConnector.get_table_metadata`
(connectorDB.py lines 486-515): safe int conversions, nullability from
`RDB$NULL_FLAG == 0`, and the numeric scale negated when present
(Firebird stores a negative scale for decimal places). -/
def fbColumnOfRow (r : FbColRow) : ColumnMetadata :=
  let fieldPrecision := safe_int_conversion r.fieldPrecision
  let fieldScale := safe_int_conversion r.fieldScale
  let fieldSubType := r.fieldSubType.getD 0
  { name := pyStrip r.fieldName
    type := map_firebird_type r.fieldType fieldSubType
    is_nullable := pyEqZero r.nullFlag
    default_value := pyStripOrNone r.defaultSource
    max_length := safe_int_conversion r.fieldLength
    numeric_precision := fieldPrecision
    numeric_scale := fieldScale.map (fun s => -s)
    comment := pyStripOrNone r.description }

/-- Claim C8: for every Firebird column row whose catalog scale value is
non-null (an integer from the driver), the stored `numeric_scale` is the
sign-inverted catalog value, while `numeric_precision` is taken
unchanged. -/
theorem C8_firebird_scale_inverted (r : FbColRow) (s p : Int)
    (hs : r.fieldScale = PyValue.pyInt s)
    (hp : r.fieldPrecision = PyValue.pyInt p) :
    (fbColumnOfRow r).numeric_scale = some (-s) ∧
    (fbColumnOfRow r).numeric_precision = some p := by
  constructor <;> simp [fbColumnOfRow, hs, hp, safe_int_conversion]

/-- Claim C8, witness: a DECIMAL(9,2) column as Firebird stores it, with
catalog scale -2. -/
theorem C8_witness :
    (fbColumnOfRow ⟨"VALOR", 8, PyValue.pyInt 4, PyValue.pyInt 9,
        PyValue.pyInt (-2), PyValue.pyInt 0, none, none, some 0⟩).numeric_scale =
      some 2 ∧
    (fbColumnOfRow ⟨"VALOR", 8, PyValue.pyInt 4, PyValue.pyInt 9,
        PyValue.pyInt (-2), PyValue.pyInt 0, none, none, some 0⟩).numeric_precision =
      some 9 :=
  C8_firebird_scale_inverted
    ⟨"VALOR", 8, PyValue.pyInt 4, PyValue.pyInt 9, PyValue.pyInt (-2),
     PyValue.pyInt 0, none, none, some 0⟩ (-2) 9 rfl rfl

/-- What `hasattr` finds on the physical connection object held by a
`BaseDBConnector` inside the `with`-block exit handler. -/
structure ConnObj where
  hasRollback : Bool
  hasCommit : Bool
deriving DecidableEq

/-- Operations the exit handler of `BaseDBConnector.__exit__` can invoke
on the connector, in invocation order. -/
inductive ExitAction where
  | rollback : ExitAction
  | commit : ExitAction
  | disconnect : ExitAction
deriving DecidableEq

/-- `BaseDBConnector.__exit__` (connectorDB.py lines 347-369) as the
sequence of operations it attempts: nothing when no live connection;
otherwise rollback (if an exception is in flight and the connection has
one) or commit (if no exception and the connection has one) — failures
of either are caught and logged — followed by `disconnect`. -/
def exitTrace (connection : Option ConnObj) (excInFlight : Bool) : List ExitAction :=
  match connection with
  | none => []
  | some c =>
      (if excInFlight then
         (if c.hasRollback then [ExitAction.rollback] else [])
       else
         (if c.hasCommit then [ExitAction.commit] else [])) ++ [ExitAction.disconnect]

/-- Claim C4: for every connector entered as a scoped resource with a
live connection, exiting the scope commits if no exception propagated
and commit is available, rolls back instead if an exception is in
flight and rollback is available (no commit is attempted then), and
disconnect always runs on exit regardless of outcome. -/
theorem C4_scoped_exit_policy (c : ConnObj) (excInFlight : Bool) :
    (excInFlight = false → c.hasCommit = true →
       ExitAction.commit ∈ exitTrace (some c) excInFlight) ∧
    (excInFlight = true →
       (c.hasRollback = true → ExitAction.rollback ∈ exitTrace (some c) excInFlight) ∧
       ExitAction.commit ∉ exitTrace (some c) excInFlight) ∧
    ExitAction.disconnect ∈ exitTrace (some c) excInFlight := by
  refine ⟨?_, ?_, ?_⟩
  · intro hexc hc
    simp [exitTrace, hexc, hc]
  · intro hexc
    constructor
    · intro hr
      simp [exitTrace, hexc, hr]
    · cases hr : c.hasRollback <;> simp [exitTrace, hexc, hr]
  · cases excInFlight <;> cases hr : c.hasRollback <;> cases hc : c.hasCommit <;>
      simp [exitTrace, hr, hc]

/-- Claim C4, witness: the exit policy evaluated on a connection that
supports both commit and rollback, with an exception in flight. -/
theorem C4_witness :
    (ExitAction.rollback ∈ exitTrace (some ⟨true, true⟩) true) ∧
    ExitAction.commit ∉ exitTrace (some ⟨true, true⟩) true ∧
    ExitAction.disconnect ∈ exitTrace (some ⟨true, true⟩) true :=
  ⟨((C4_scoped_exit_policy ⟨true, true⟩ true).2.1 rfl).1 rfl,
   ((C4_scoped_exit_policy ⟨true, true⟩ true).2.1 rfl).2,
   (C4_scoped_exit_policy ⟨true, true⟩ true).2.2⟩

/-- Behaviour of the underlying driver connection and cursor, as oracles:
`none` means the driver call succeeds, `some e` that it raises `e`. -/
structure DriverConn where
  hasRollback : Bool
  commitResult : Option String
  rollbackResult : Option String
  cursorResult : Option String
  execResult : String → List PyValue → Option String
  fetchResult : List (List PyValue)
  rowcount : Int

/-- Driver-level calls a `BaseDBConnector` operation can perform, in
order: a database round trip happens only through these. -/
inductive DbCall where
  | getCursor : DbCall
  | cursorExecute : String → List PyValue → DbCall
  | fetchall : DbCall
  | rollbackCall : DbCall
  | commitCall : DbCall

/-- Exceptions raised by `BaseDBConnector` operations. -/
inductive DbExc where
  | connectionError : String → DbExc
  | databaseError : String → DbExc
deriving DecidableEq

/-- `BaseDBConnector.commit_transaction` (connectorDB.py lines 265-273). -/
def commit_transaction (connection : Option DriverConn) (db_type : String) :
    Except DbExc Unit × List DbCall :=
  match connection with
  | none =>
      (Except.error (DbExc.connectionError
        ("Conexão com o banco de dados (" ++ db_type ++ ") não estabelecida para commit.")), [])
  | some c =>
      match c.commitResult with
      | none => (Except.ok (), [DbCall.commitCall])
      | some e =>
          (Except.error (DbExc.databaseError
            ("Erro ao confirmar transação " ++ db_type ++ ": " ++ e)), [DbCall.commitCall])

/-- `BaseDBConnector.rollback_transaction` (connectorDB.py lines 275-283). -/
def rollback_transaction (connection : Option DriverConn) (db_type : String) :
    Except DbExc Unit × List DbCall :=
  match connection with
  | none =>
      (Except.error (DbExc.connectionError
        ("Conexão com o banco de dados (" ++ db_type ++ ") não estabelecida para rollback.")), [])
  | some c =>
      match c.rollbackResult with
      | none => (Except.ok (), [DbCall.rollbackCall])
      | some e =>
          (Except.error (DbExc.databaseError
            ("Erro ao desfazer transação " ++ db_type ++ ": " ++ e)), [DbCall.rollbackCall])

/-- The best-effort rollback attempted inside the `except` branch of
`execute_query` / `execute_update` (its own failure is only logged). -/
def bestEffortRollback (c : DriverConn) : List DbCall :=
  if c.hasRollback then [DbCall.rollbackCall] else []

/-- `BaseDBConnector.execute_query` (connectorDB.py lines 285-302):
guard on a live connection, then cursor acquisition, execute, fetchall;
on any driver failure a best-effort rollback precedes the wrapped
`DatabaseError`. -/
def execute_query (connection : Option DriverConn) (db_type : String)
    (query : String) (params : List PyValue) :
    Except DbExc (List (List PyValue)) × List DbCall :=
  match connection with
  | none =>
      (Except.error (DbExc.connectionError
        ("Conexão com o banco de dados (" ++ db_type ++ ") não estabelecida.")), [])
  | some c =>
      match c.cursorResult with
      | some e =>
          (Except.error (DbExc.databaseError
            ("Erro ao executar consulta: " ++ query ++ "\n - " ++ e)),
           [DbCall.getCursor] ++ bestEffortRollback c)
      | none =>
          match c.execResult query params with
          | some e =>
              (Except.error (DbExc.databaseError
                ("Erro ao executar consulta: " ++ query ++ "\n - " ++ e)),
               [DbCall.getCursor, DbCall.cursorExecute query params] ++ bestEffortRollback c)
          | none =>
              (Except.ok c.fetchResult,
               [DbCall.getCursor, DbCall.cursorExecute query params, DbCall.fetchall])

/-- `BaseDBConnector.execute_update` (connectorDB.py lines 304-321). -/
def execute_update (connection : Option DriverConn) (db_type : String)
    (query : String) (params : List PyValue) :
    Except DbExc Int × List DbCall :=
  match connection with
  | none =>
      (Except.error (DbExc.connectionError
        ("Conexão com o banco de dados (" ++ db_type ++ ") não estabelecida.")), [])
  | some c =>
      match c.cursorResult with
      | some e =>
          (Except.error (DbExc.databaseError
            ("Erro ao executar atualização: " ++ query ++ "\n - " ++ e)),
           [DbCall.getCursor] ++ bestEffortRollback c)
      | none =>
          match c.execResult query params with
          | some e =>
              (Except.error (DbExc.databaseError
                ("Erro ao executar atualização: " ++ query ++ "\n - " ++ e)),
               [DbCall.getCursor, DbCall.cursorExecute query params] ++ bestEffortRollback c)
          | none =>
              (Except.ok c.rowcount,
               [DbCall.getCursor, DbCall.cursorExecute query params])

/-- Claim C9: on a connector whose connection is not established, each of
`execute_query`, `execute_update`, `commit_transaction` and
`rollback_transaction` raises a connection error immediately, with an
empty driver-call trace (no cursor acquisition, no driver call). -/
theorem C9_disconnected_ops_raise (db_type query : String) (params : List PyValue) :
    execute_query none db_type query params =
      (Except.error (DbExc.connectionError
        ("Conexão com o banco de dados (" ++ db_type ++ ") não estabelecida.")), []) ∧
    execute_update none db_type query params =
      (Except.error (DbExc.connectionError
        ("Conexão com o banco de dados (" ++ db_type ++ ") não estabelecida.")), []) ∧
    commit_transaction none db_type =
      (Except.error (DbExc.connectionError
        ("Conexão com o banco de dados (" ++ db_type ++ ") não estabelecida para commit.")), []) ∧
    rollback_transaction none db_type =
      (Except.error (DbExc.connectionError
        ("Conexão com o banco de dados (" ++ db_type ++ ") não estabelecida para rollback.")), []) :=
  ⟨rfl, rfl, rfl, rfl⟩

theorem leadsWith_append_self (p rest : List Char) :
    leadsWith p (p ++ rest) = true := by
  induction p with
  | nil => rfl
  | cons a as ih => simp [leadsWith, ih]

theorem containsSub_of_leadsWith (s p : List Char) (h : leadsWith p s = true) :
    containsSub s p = true := by
  cases s with
  | nil =>
      cases p with
      | nil => rfl
      | cons a as => simp [leadsWith] at h
  | cons c rest => simp [containsSub, h]

theorem containsSub_append_left (s t p : List Char) (h : containsSub t p = true) :
    containsSub (s ++ t) p = true := by
  induction s with
  | nil => simpa using h
  | cons c s ih => simp [containsSub, ih]

/-- A pattern sandwiched inside a string is found by `containsSub`. -/
theorem containsSub_sandwich (a p b : List Char) :
    containsSub (a ++ (p ++ b)) p = true :=
  containsSub_append_left a (p ++ b) p
    (containsSub_of_leadsWith (p ++ b) p (leadsWith_append_self p b))

/-- Every element of a joined list occurs contiguously in the join. -/
theorem joinSep_decomp (sep : String) :
    ∀ (l : List String) (x : String), x ∈ l →
      ∃ a b, (joinSep sep l).data = a ++ (x.data ++ b) := by
  intro l
  induction l with
  | nil => intro x hx; cases hx
  | cons x0 rest ih =>
      intro x hx
      cases rest with
      | nil =>
          have hx0 : x = x0 := by simpa using hx
          subst hx0
          exact ⟨[], [], by simp [joinSep]⟩
      | cons y ys =>
          rcases List.mem_cons.mp hx with h1 | h2
          · subst h1
            exact ⟨[], sep.data ++ (joinSep sep (y :: ys)).data,
                   by simp [joinSep, String.data_append, List.append_assoc]⟩
          · obtain ⟨a, b, hab⟩ := ih x h2
            exact ⟨x0.data ++ sep.data ++ a, b,
                   by simp [joinSep, String.data_append, hab, List.append_assoc]⟩

namespace ConnectorDBManager

/-- Keys of `DBConnectionManager._CONNECTOR_MAP` (connectorDB.py lines
1171-1175) — always all three dialects, regardless of driver
availability. -/
def CONNECTOR_MAP_KEYS : List String := ["firebird", "mysql", "postgresql"]

/-- The module-level driver-availability flags of connectorDB.py
(lines 12-42). -/
structure DriverFlags where
  fdb_available : Bool
  mysql_connector_available : Bool
  psycopg2_available : Bool
deriving DecidableEq

/-- Result of `DBConnectionManager.get_connector` in connectorDB.py. -/
inductive FactoryResult where
  | connector : String → FactoryResult
  | configError : String → FactoryResult
  | importError : String → FactoryResult
deriving DecidableEq

/-- The `ConfigError` message for an unsupported dialect identifier
(connectorDB.py line 1283) — it does NOT enumerate the known
identifiers. -/
def unsupportedMsg (db_type : String) : String :=
  "Tipo de banco de dados " ++ sglQuote ++ db_type ++ sglQuote ++
    " não suportado ou configurado incorretamente."

/-- `DBConnectionManager.get_connector` (connectorDB.py lines
1274-1294): map lookup first (`ConfigError` when absent), then one
distinct `ImportError` per dialect whose optional driver failed to load
at process start. -/
def get_connector (flags : DriverFlags) (db_type_cfg : Option String) :
    FactoryResult :=
  let db_type := pyLower (db_type_cfg.getD "")
  if db_type ∉ CONNECTOR_MAP_KEYS then
    FactoryResult.configError (unsupportedMsg db_type)
  else if db_type = "firebird" ∧ flags.fdb_available = false then
    FactoryResult.importError
      "Driver Firebird (firebird.driver) não está disponível. Por favor, instale-o."
  else if db_type = "mysql" ∧ flags.mysql_connector_available = false then
    FactoryResult.importError
      "Driver MySQL (mysql-connector-python) não está disponível. Por favor, instale-o."
  else if db_type = "postgresql" ∧ flags.psycopg2_available = false then
    FactoryResult.importError
      "Driver PostgreSQL (psycopg2-binary) não está disponível. Por favor, instale-o."
  else FactoryResult.connector db_type

end ConnectorDBManager

namespace ConnectorManager

/-- The registry `DBConnectionManager._connectors` of
connector_manager.py (lines 13-33): populated at import time, each
dialect present only when its connector module imported successfully;
insertion order firebird, mysql, postgres (note: the PostgreSQL key here
is `postgres`). -/
def registry (fbImportOk mysqlImportOk pgImportOk : Bool) : List String :=
  (if fbImportOk then ["firebird"] else []) ++
    (if mysqlImportOk then ["mysql"] else []) ++
    (if pgImportOk then ["postgres"] else [])

/-- Result of `DBConnectionManager.get_connector` in connector_manager.py. -/
inductive MgrResult where
  | connector : String → MgrResult
  | valueError : String → MgrResult
  | databaseError : String → MgrResult
deriving DecidableEq

/-- Python `repr` of a list of strings, as interpolated into the error
message by `list(cls._connectors.keys())`. -/
def pyListRepr (xs : List String) : String :=
  "[" ++ joinSep ", " (xs.map (fun s => sglQuote ++ s ++ sglQuote)) ++ "]"

/-- The `ValueError` message for an identifier absent from the registry
(connector_manager.py line 63) — it lists the currently registered
identifiers. -/
def unsupportedMsg (db_type : String) (reg : List String) : String :=
  "Tipo de banco de dados " ++ sglQuote ++ db_type ++ sglQuote ++
    " não suportado ou conector não disponível. Conectores disponíveis: " ++
    pyListRepr reg

/-- `DBConnectionManager.get_connector` (connector_manager.py lines
42-72): registry lookup (generic `ValueError` listing the registry when
absent — a dialect whose driver failed to import is simply absent), then
construction and connect, wrapped into `DatabaseError` on failure
(`connectFailure` is the oracle for that). -/
def get_connector (reg : List String) (connectFailure : Option String)
    (db_type : String) : MgrResult :=
  if pyLower db_type ∉ reg then
    MgrResult.valueError (unsupportedMsg db_type reg)
  else
    match connectFailure with
    | none => MgrResult.connector db_type
    | some e =>
        MgrResult.databaseError
          ("Não foi possível conectar ao banco de dados " ++ db_type ++ ": " ++ e)

/-- The registry-lookup error message really lists every currently
registered identifier as a substring. -/
theorem unsupportedMsg_lists (d : String) (reg : List String) (k : String)
    (hk : k ∈ reg) :
    containsSub (unsupportedMsg d reg).data k.data = true := by
  obtain ⟨a, b, hab⟩ := joinSep_decomp ", " (reg.map (fun s => sglQuote ++ s ++ sglQuote))
    (sglQuote ++ k ++ sglQuote) (List.mem_map_of_mem _ hk)
  have hmsg : (unsupportedMsg d reg).data =
      (("Tipo de banco de dados " ++ sglQuote ++ d ++ sglQuote ++
        " não suportado ou conector não disponível. Conectores disponíveis: ").data ++
       "[".data ++ a ++ sglQuote.data) ++
      (k.data ++ (sglQuote.data ++ b ++ "]".data)) := by
    simp [unsupportedMsg, pyListRepr, String.data_append, hab, List.append_assoc]
  rw [hmsg]
  exact containsSub_sandwich _ _ _

end ConnectorManager

/-- Claim C3, counterexample: (i) in connectorDB.py, looking up the
unknown dialect `oracle` (all drivers loaded) raises a `ConfigError`
whose message does not list any of the known identifiers; (ii) in
connector_manager.py, requesting `firebird` when the Firebird connector
failed to import yields the same generic registry-lookup `ValueError`
(no distinct driver-unavailable failure exists on that path). -/
theorem C3_counterexample :
    ConnectorDBManager.get_connector ⟨true, true, true⟩ (some "oracle") =
      ConnectorDBManager.FactoryResult.configError
        (ConnectorDBManager.unsupportedMsg "oracle") ∧
    containsSub (ConnectorDBManager.unsupportedMsg "oracle").data
      "firebird".data = false ∧
    containsSub (ConnectorDBManager.unsupportedMsg "oracle").data
      "mysql".data = false ∧
    containsSub (ConnectorDBManager.unsupportedMsg "oracle").data
      "postgresql".data = false ∧
    ConnectorManager.get_connector (ConnectorManager.registry false true true)
      none "firebird" =
      ConnectorManager.MgrResult.valueError
        (ConnectorManager.unsupportedMsg "firebird"
          (ConnectorManager.registry false true true)) := by
  refine ⟨by decide, by decide, by decide, by decide, by decide⟩

/-- Claim C3, amended: the two factories split the claimed behaviour.
connectorDB.py: an unknown identifier raises a `ConfigError` (whose
message does NOT list the known identifiers), and a known identifier
whose driver failed to load raises a distinct `ImportError`.
connector_manager.py: an identifier absent from the registry raises a
`ValueError` whose message lists the currently registered identifiers,
and a dialect whose driver failed to import is absent from the registry,
so it fails with that same generic error rather than a distinct one. -/
theorem C3_amended_factory_errors :
    (∀ (flags : ConnectorDBManager.DriverFlags) (cfg : Option String),
       pyLower (cfg.getD "") ∉ ConnectorDBManager.CONNECTOR_MAP_KEYS →
       ConnectorDBManager.get_connector flags cfg =
         ConnectorDBManager.FactoryResult.configError
           (ConnectorDBManager.unsupportedMsg (pyLower (cfg.getD "")))) ∧
    (∀ flags : ConnectorDBManager.DriverFlags, flags.fdb_available = false →
       ConnectorDBManager.get_connector flags (some "firebird") =
         ConnectorDBManager.FactoryResult.importError
           "Driver Firebird (firebird.driver) não está disponível. Por favor, instale-o.") ∧
    (∀ flags : ConnectorDBManager.DriverFlags,
       flags.mysql_connector_available = false →
       ConnectorDBManager.get_connector flags (some "mysql") =
         ConnectorDBManager.FactoryResult.importError
           "Driver MySQL (mysql-connector-python) não está disponível. Por favor, instale-o.") ∧
    (∀ flags : ConnectorDBManager.DriverFlags, flags.psycopg2_available = false →
       ConnectorDBManager.get_connector flags (some "postgresql") =
         ConnectorDBManager.FactoryResult.importError
           "Driver PostgreSQL (psycopg2-binary) não está disponível. Por favor, instale-o.") ∧
    (∀ (reg : List String) (cf : Option String) (d : String), pyLower d ∉ reg →
       ConnectorManager.get_connector reg cf d =
         ConnectorManager.MgrResult.valueError
           (ConnectorManager.unsupportedMsg d reg)) ∧
    (∀ (d : String) (reg : List String) (k : String), k ∈ reg →
       containsSub (ConnectorManager.unsupportedMsg d reg).data k.data = true) ∧
    (∀ (mysqlImportOk pgImportOk : Bool) (cf : Option String),
       ConnectorManager.get_connector
         (ConnectorManager.registry false mysqlImportOk pgImportOk) cf "firebird" =
         ConnectorManager.MgrResult.valueError
           (ConnectorManager.unsupportedMsg "firebird"
             (ConnectorManager.registry false mysqlImportOk pgImportOk))) := by
  refine ⟨?_, ?_, ?_, ?_, ?_, ?_, ?_⟩
  · intro flags cfg h
    simp [ConnectorDBManager.get_connector, h]
  · intro flags h
    simp [ConnectorDBManager.get_connector, h, ConnectorDBManager.CONNECTOR_MAP_KEYS,
      show pyLower "firebird" = "firebird" from by decide]
  · intro flags h
    simp [ConnectorDBManager.get_connector, h, ConnectorDBManager.CONNECTOR_MAP_KEYS,
      show pyLower "mysql" = "mysql" from by decide]
  · intro flags h
    simp [ConnectorDBManager.get_connector, h, ConnectorDBManager.CONNECTOR_MAP_KEYS,
      show pyLower "postgresql" = "postgresql" from by decide]
  · intro reg cf d h
    simp [ConnectorManager.get_connector, h]
  · exact ConnectorManager.unsupportedMsg_lists
  · intro mysqlImportOk pgImportOk cf
    have h : pyLower "firebird" ∉
        ConnectorManager.registry false mysqlImportOk pgImportOk := by
      cases mysqlImportOk <;> cases pgImportOk <;> decide
    simp [ConnectorManager.get_connector, h]

/-- Claim C3, witness: the amended theorem evaluated on concrete inputs
(unknown dialect `sqlite`, Firebird driver missing, and the listing
property for `mysql` in a full registry). -/
theorem C3_amended_witness :
    ConnectorDBManager.get_connector ⟨true, true, true⟩ (some "sqlite") =
      ConnectorDBManager.FactoryResult.configError
        (ConnectorDBManager.unsupportedMsg (pyLower "sqlite")) ∧
    ConnectorDBManager.get_connector ⟨false, true, true⟩ (some "firebird") =
      ConnectorDBManager.FactoryResult.importError
        "Driver Firebird (firebird.driver) não está disponível. Por favor, instale-o." ∧
    containsSub
      (ConnectorManager.unsupportedMsg "oracle" ["firebird", "mysql", "postgres"]).data
      "mysql".data = true ∧
    ConnectorManager.get_connector (ConnectorManager.registry false true true)
      none "firebird" =
      ConnectorManager.MgrResult.valueError
        (ConnectorManager.unsupportedMsg "firebird"
          (ConnectorManager.registry false true true)) :=
  ⟨C3_amended_factory_errors.1 ⟨true, true, true⟩ (some "sqlite") (by decide),
   C3_amended_factory_errors.2.1 ⟨false, true, true⟩ rfl,
   C3_amended_factory_errors.2.2.2.2.2.1 "oracle" ["firebird", "mysql", "postgres"]
     "mysql" (by decide),
   C3_amended_factory_errors.2.2.2.2.2.2 true true none⟩

/-- One row of the Firebird foreign-key query (connectorDB.py lines
527-544), ordered by constraint name and field position: one row per
column segment of each constraint. -/
structure FbFkRow where
  nameRaw : Option String
  columnName : String
  referencedTable : String
  referencedColumn : String
  onUpdateRaw : Option String
  onDeleteRaw : Option String
deriving DecidableEq

/-- `str(raw).strip() if raw else "UNNAMED_FK"` (connectorDB.py line 558). -/
def fbFkName (r : FbFkRow) : String :=
  match r.nameRaw with
  | some s => if s.data.isEmpty then "UNNAMED_FK" else pyStrip s
  | none => "UNNAMED_FK"

/-- `str(x).strip() if x else ''` for the raw FK action rules. -/
def fbActionRaw : Option String → String
  | none => ""
  | some s => if s.data.isEmpty then "" else pyStrip s

/-- `fk_action_map.get(value, 'UNKNOWN')` — the identity mapping on the
five known actions with default `UNKNOWN` (connectorDB.py lines 548-554). -/
def fkActionMap (v : String) : String :=
  if v = "CASCADE" ∨ v = "SET NULL" ∨ v = "SET DEFAULT" ∨ v = "NO ACTION" ∨ v = "RESTRICT"
  then v else "UNKNOWN"

/-- The `ForeignKeyMetadata` built for a Firebird row (connectorDB.py
lines 577-584). -/
def fbMkFk (r : FbFkRow) : ForeignKeyMetadata :=
  { name := fbFkName r
    column_name := pyStrip r.columnName
    referenced_table_name := pyStrip r.referencedTable
    referenced_column_name := pyStrip r.referencedColumn
    on_update := some (fkActionMap (fbActionRaw r.onUpdateRaw))
    on_delete := some (fkActionMap (fbActionRaw r.onDeleteRaw)) }

theorem fbMkFk_name (r : FbFkRow) : (fbMkFk r).name = fbFkName r := rfl

/-- Lookup in an insertion-ordered dictionary. -/
def dictLookup (l : List (String × ForeignKeyMetadata)) (n : String) :
    Option ForeignKeyMetadata :=
  match l with
  | [] => none
  | (k, v) :: rest => if k = n then some v else dictLookup rest n

/-- One iteration of the Firebird FK loop: `if fk_name not in
foreign_keys_dict: foreign_keys_dict[fk_name] = ForeignKeyMetadata(...)`
(connectorDB.py lines 569-584) — later segments of an already-seen
constraint are dropped. -/
def fbFkInsert (acc : List (String × ForeignKeyMetadata)) (r : FbFkRow) :
    List (String × ForeignKeyMetadata) :=
  if (dictLookup acc (fbFkName r)).isSome then acc
  else acc ++ [(fbFkName r, fbMkFk r)]

/-- `list(foreign_keys_dict.values())` after the Firebird FK loop. -/
def firebirdForeignKeys (rows : List FbFkRow) : List ForeignKeyMetadata :=
  (rows.foldl fbFkInsert []).map Prod.snd

theorem dictLookup_append_single (l : List (String × ForeignKeyMetadata))
    (k : String) (v : ForeignKeyMetadata) (n : String) :
    dictLookup (l ++ [(k, v)]) n =
      match dictLookup l n with
      | some w => some w
      | none => if k = n then some v else none := by
  induction l with
  | nil => rfl
  | cons p rest ih =>
      obtain ⟨k0, v0⟩ := p
      by_cases h : k0 = n
      · simp [dictLookup, h]
      · simp [dictLookup, h, ih]

/-- Characterization of the Firebird FK dedup loop: among the collected
records, those named `n` are exactly the one built from the first row
whose (computed) constraint name is `n`, if any. -/
theorem foldl_fbFkInsert (rows : List FbFkRow) :
    ∀ (acc : List (String × ForeignKeyMetadata)) (n : String),
      ((rows.foldl fbFkInsert acc).map Prod.snd).filter (fun fk => fk.name == n) =
        ((acc.map Prod.snd).filter (fun fk => fk.name == n)) ++
          (match dictLookup acc n, rows.find? (fun r => fbFkName r == n) with
           | none, some r => [fbMkFk r]
           | _, _ => []) := by
  induction rows with
  | nil =>
      intro acc n
      cases dictLookup acc n <;> simp
  | cons r rs ih =>
      intro acc n
      rw [List.foldl_cons]
      by_cases hin : (dictLookup acc (fbFkName r)).isSome = true
      · have hacc : fbFkInsert acc r = acc := by simp [fbFkInsert, hin]
        rw [hacc, ih]
        by_cases hn : fbFkName r = n
        · obtain ⟨w, hw⟩ := Option.isSome_iff_exists.mp (hn ▸ hin)
          simp [hw]
        · have : (fbFkName r == n) = false := beq_eq_false_iff_ne.mpr hn
          simp [List.find?_cons, this]
      · have hnone : dictLookup acc (fbFkName r) = none :=
          Option.not_isSome_iff_eq_none.mp (by simpa using hin)
        have hacc : fbFkInsert acc r = acc ++ [(fbFkName r, fbMkFk r)] := by
          simp [fbFkInsert, hnone]
        rw [hacc, ih]
        by_cases hn : fbFkName r = n
        · subst hn
          have hfind : (r :: rs).find? (fun x => fbFkName x == fbFkName r) = some r := by
            simp [List.find?_cons]
          rw [hfind, dictLookup_append_single, hnone]
          simp [List.filter_append, fbMkFk_name, hnone]
        · have hb : (fbFkName r == n) = false := beq_eq_false_iff_ne.mpr hn
          have hlook : dictLookup (acc ++ [(fbFkName r, fbMkFk r)]) n = dictLookup acc n := by
            rw [dictLookup_append_single]
            cases dictLookup acc n <;> simp [hn]
          rw [hlook]
          simp [List.filter_append, List.find?_cons, hb, fbMkFk_name, hn]

/-- One row of the MySQL foreign-key query on
`information_schema.KEY_COLUMN_USAGE` joined with
`REFERENTIAL_CONSTRAINTS` (connectorDB.py lines 803-818): one row per
column of each constraint. -/
structure MySqlFkRow where
  constraintName : String
  columnName : String
  referencedTableName : String
  referencedColumnName : String
  updateRule : String
  deleteRule : String
deriving DecidableEq

/-- The record appended per MySQL row (connectorDB.py lines 825-832). -/
def mysqlFkOfRow (r : MySqlFkRow) : ForeignKeyMetadata :=
  { name := r.constraintName
    column_name := r.columnName
    referenced_table_name := r.referencedTableName
    referenced_column_name := r.referencedColumnName
    on_update := some r.updateRule
    on_delete := some r.deleteRule }

/-- The MySQL FK loop (connectorDB.py lines 821-832): appends one record
per returned row, with no grouping by constraint name. -/
def mysqlForeignKeys (rows : List MySqlFkRow) : List ForeignKeyMetadata :=
  rows.map mysqlFkOfRow

/-- One row of the PostgreSQL foreign-key query on `pg_constraint`
(connectorDB.py lines 1083-1097): the `ANY(conkey)`/`ANY(confkey)` joins
return one row per attribute pair of each constraint. -/
structure PgFkRow where
  conname : String
  columnName : String
  referencedTableName : String
  referencedColumnName : String
  confupdtype : Char
  confdeltype : Char
deriving DecidableEq

/-- `fk_actions.get(chr(code), 'UNKNOWN')` (connectorDB.py lines 1100-1113). -/
def pgFkAction (c : Char) : String :=
  if c = 'a' then "NO ACTION"
  else if c = 'r' then "RESTRICT"
  else if c = 'c' then "CASCADE"
  else if c = 'n' then "SET NULL"
  else if c = 'd' then "SET DEFAULT"
  else "UNKNOWN"

/-- The record appended per PostgreSQL row (connectorDB.py lines 1115-1122). -/
def pgFkOfRow (r : PgFkRow) : ForeignKeyMetadata :=
  { name := r.conname
    column_name := r.columnName
    referenced_table_name := r.referencedTableName
    referenced_column_name := r.referencedColumnName
    on_update := some (pgFkAction r.confupdtype)
    on_delete := some (pgFkAction r.confdeltype) }

/-- `PostgreSQLConnector._get_foreign_keys` loop (connectorDB.py lines
1108-1123): appends one record per returned row, with no grouping. -/
def pgForeignKeys (rows : List PgFkRow) : List ForeignKeyMetadata :=
  rows.map pgFkOfRow

/-- Claim C7, counterexample: a two-column foreign key (two catalog rows
sharing one constraint name) yields TWO `ForeignKeyMetadata` records in
MySQL introspection and likewise in PostgreSQL, not exactly one — only
Firebird collapses to the first segment. -/
theorem C7_counterexample :
    (mysqlForeignKeys
        [⟨"fk_pedido", "cliente_id", "clientes", "id", "CASCADE", "RESTRICT"⟩,
         ⟨"fk_pedido", "empresa_id", "clientes", "empresa", "CASCADE", "RESTRICT"⟩]).length = 2 ∧
    (mysqlForeignKeys
        [⟨"fk_pedido", "cliente_id", "clientes", "id", "CASCADE", "RESTRICT"⟩,
         ⟨"fk_pedido", "empresa_id", "clientes", "empresa", "CASCADE", "RESTRICT"⟩]).map
        (fun fk => fk.name) = ["fk_pedido", "fk_pedido"] ∧
    (pgForeignKeys
        [⟨"fk_item", "pedido_id", "pedidos", "id", 'c', 'a'⟩,
         ⟨"fk_item", "loja_id", "pedidos", "loja", 'c', 'a'⟩]).length = 2 ∧
    (pgForeignKeys
        [⟨"fk_item", "pedido_id", "pedidos", "id", 'c', 'a'⟩,
         ⟨"fk_item", "loja_id", "pedidos", "loja", 'c', 'a'⟩]).map
        (fun fk => fk.name) = ["fk_item", "fk_item"] :=
  ⟨rfl, rfl, rfl, rfl⟩

/-- Claim C7, amended: in FIREBIRD introspection, for every constraint
name the collected foreign-key records named so are exactly one, built
from the first returned row of that constraint (the first column
segment, given the query's ORDER BY field position) — or none when no
row carries that name.  MySQL and PostgreSQL instead emit one record per
catalog row (see the counterexample). -/
theorem C7_amended_firebird_fk_first_segment (rows : List FbFkRow) (n : String) :
    (firebirdForeignKeys rows).filter (fun fk => fk.name == n) =
      match rows.find? (fun r => fbFkName r == n) with
      | some r => [fbMkFk r]
      | none => [] := by
  rw [firebirdForeignKeys, foldl_fbFkInsert rows [] n]
  cases rows.find? (fun r => fbFkName r == n) <;> rfl

/-- The sensitive configuration fields the vault may decrypt
(connectorDB.py line 1251). -/
def sensitive_keys : List String := ["password", "user", "database", "host"]

/-- `decrypted_config[key] = value` on a configuration map. -/
def setKey (cfg : String → Option PyValue) (k : String) (v : PyValue) :
    String → Option PyValue :=
  fun q => if q = k then some v else cfg q

/-- One iteration of the sensitive-field loop in
`DBConnectionManager._decrypt_config` (connectorDB.py lines 1253-1268):
reads the original value from `raw_config`, and when it is a string
carrying the `ENC:` marker writes the decryption result — or `None` on
failure — into `decrypted_config` (`acc`). -/
def decryptField (dec : String → Option String) (raw acc : String → Option PyValue)
    (key : String) : String → Option PyValue :=
  match raw key with
  | some (PyValue.pyStr v) =>
      if strStartsWith v "ENC:" then
        match dec (strDrop v 4) with
        | some plain => setKey acc key (PyValue.pyStr plain)
        | none => setKey acc key PyValue.pyNone
      else acc
  | _ => acc

/-- The whole sensitive-field loop of `_decrypt_config`, starting from
the deep copy of the raw configuration. -/
def decryptSensitiveFields (dec : String → Option String)
    (raw : String → Option PyValue) : String → Option PyValue :=
  sensitive_keys.foldl (decryptField dec raw) raw

/-- What the loop writes at `key`, if anything: `some w` when the raw
value carries the marker (`w` is the plaintext or `None` on failure),
`none` when the field is left untouched. -/
def encAction (dec : String → Option String) (raw : String → Option PyValue)
    (key : String) : Option PyValue :=
  match raw key with
  | some (PyValue.pyStr v) =>
      if strStartsWith v "ENC:" then
        some (match dec (strDrop v 4) with
              | some plain => PyValue.pyStr plain
              | none => PyValue.pyNone)
      else none
  | _ => none

theorem decryptField_ne (dec : String → Option String)
    (raw acc : String → Option PyValue) (key q : String) (h : q ≠ key) :
    decryptField dec raw acc key q = acc q := by
  unfold decryptField
  cases hr : raw key with
  | none => rfl
  | some v =>
      cases v with
      | pyStr s =>
          by_cases hs : strStartsWith s "ENC:" = true
          · cases hd : dec (strDrop s 4) <;> simp [hs, hd, setKey, h]
          · simp [hs]
      | pyNone => rfl
      | pyInt i => rfl
      | pyBool b => rfl

theorem decryptField_self (dec : String → Option String)
    (raw acc : String → Option PyValue) (key : String) :
    decryptField dec raw acc key key =
      match encAction dec raw key with
      | some w => some w
      | none => acc key := by
  unfold decryptField encAction
  cases hr : raw key with
  | none => rfl
  | some v =>
      cases v with
      | pyStr s =>
          by_cases hs : strStartsWith s "ENC:" = true
          · cases hd : dec (strDrop s 4) <;> simp [hs, hd, setKey]
          · simp [hs]
      | pyNone => rfl
      | pyInt i => rfl
      | pyBool b => rfl

/-- Characterization of the sensitive-field loop: at a key in the
processed list the written value (marker present) or the accumulator
value; elsewhere the accumulator value. -/
theorem foldl_decryptField (dec : String → Option String)
    (raw : String → Option PyValue) :
    ∀ (ks : List String) (acc : String → Option PyValue) (q : String),
      (ks.foldl (decryptField dec raw) acc) q =
        if q ∈ ks then
          (match encAction dec raw q with
           | some w => some w
           | none => acc q)
        else acc q := by
  intro ks
  induction ks with
  | nil => intro acc q; simp
  | cons k ks ih =>
      intro acc q
      rw [List.foldl_cons, ih]
      by_cases hq : q ∈ ks
      · rw [if_pos hq, if_pos (List.mem_cons_of_mem _ hq)]
        cases he : encAction dec raw q with
        | some w => rfl
        | none =>
            by_cases hk : q = k
            · subst hk
              rw [decryptField_self, he]
            · rw [decryptField_ne _ _ _ _ _ hk]
      · by_cases hk : q = k
        · subst hk
          rw [if_neg hq, if_pos (List.mem_cons_self _ _)]
          exact decryptField_self dec raw acc q
        · have hnot : q ∉ k :: ks := by
            intro hmem
            rcases List.mem_cons.mp hmem with h1 | h2
            · exact hk h1
            · exact hq h2
          rw [if_neg hq, if_neg hnot]
          exact decryptField_ne dec raw acc k q hk

/-- Result of `DBConnectionManager._decrypt_config`: the derived
decrypted configuration, or a `SecurityError` when the cipher cannot be
initialized from the supplied key. -/
inductive DecryptOutcome where
  | ok : (String → Option PyValue) → DecryptOutcome
  | securityError : String → DecryptOutcome

/-- `DBConnectionManager._decrypt_config` (connectorDB.py lines
1206-1272) after key resolution: with no key, the decrypted
configuration is the (deep-copied) raw one; with a key, cipher
initialization may fail with `SecurityError`, otherwise the
sensitive-field loop runs on the copy. -/
def decrypt_config (mkCipher : String → Option (String → Option String))
    (encryptionKey : Option String) (raw : String → Option PyValue) :
    DecryptOutcome :=
  match encryptionKey with
  | none => DecryptOutcome.ok raw
  | some keyB64 =>
      match mkCipher keyB64 with
      | none =>
          DecryptOutcome.securityError
            "Erro ao inicializar Fernet com a chave fornecida. Verifique se a chave é válida ou o formato Base64."
      | some dec => DecryptOutcome.ok (decryptSensitiveFields dec raw)

/-- Claim C2: for every sensitive field whose raw value carries the
`ENC:` marker, if the ciphertext is invalid the vault sets that field to
`None` in the decrypted configuration without raising, and the remaining
sensitive fields are still processed (a valid ciphertext elsewhere still
decrypts). -/
theorem C2_decrypt_invalid_sets_none
    (mkCipher : String → Option (String → Option String)) (keyB64 : String)
    (dec : String → Option String) (raw : String → Option PyValue)
    (hciph : mkCipher keyB64 = some dec)
    (key : String) (hkey : key ∈ sensitive_keys) (v : String)
    (hv : raw key = some (PyValue.pyStr v))
    (henc : strStartsWith v "ENC:" = true)
    (hbad : dec (strDrop v 4) = none) :
    decrypt_config mkCipher (some keyB64) raw =
      DecryptOutcome.ok (decryptSensitiveFields dec raw) ∧
    decryptSensitiveFields dec raw key = some PyValue.pyNone ∧
    (∀ key2, key2 ∈ sensitive_keys → ∀ v2 p2,
       raw key2 = some (PyValue.pyStr v2) → strStartsWith v2 "ENC:" = true →
       dec (strDrop v2 4) = some p2 →
       decryptSensitiveFields dec raw key2 = some (PyValue.pyStr p2)) := by
  refine ⟨by simp [decrypt_config, hciph], ?_, ?_⟩
  · rw [decryptSensitiveFields, foldl_decryptField, if_pos hkey]
    simp [encAction, hv, henc, hbad]
  · intro key2 hkey2 v2 p2 hv2 henc2 hgood2
    rw [decryptSensitiveFields, foldl_decryptField, if_pos hkey2]
    simp [encAction, hv2, henc2, hgood2]

/-- Claim C2, witness: a configuration whose password ciphertext is
corrupt (the cipher rejects it) ends with `password = None`. -/
theorem C2_witness :
    decryptSensitiveFields (fun _ => none)
      (fun q => if q = "password" then some (PyValue.pyStr "ENC:broken")
                else if q = "user" then some (PyValue.pyStr "admin") else none)
      "password" = some PyValue.pyNone :=
  (C2_decrypt_invalid_sets_none (fun _ => some (fun _ => none)) "k"
    (fun _ => none)
    (fun q => if q = "password" then some (PyValue.pyStr "ENC:broken")
              else if q = "user" then some (PyValue.pyStr "admin") else none)
    rfl "password" (by simp [sensitive_keys]) "ENC:broken" (by simp)
    (by decide) rfl).2.1

/-- Claim C6: the vault never changes anything but the sensitive fields:
the decrypted configuration agrees with the raw (deep-copied)
configuration on every key outside `sensitive_keys`; in this pure
embedding the raw configuration itself is unchanged by construction. -/
theorem C6_vault_frame (dec : String → Option String)
    (raw : String → Option PyValue) (k : String) (hk : k ∉ sensitive_keys) :
    decryptSensitiveFields dec raw k = raw k := by
  rw [decryptSensitiveFields, foldl_decryptField, if_neg hk]

/-- Claim C6, witness: the non-sensitive key `port` passes through the
vault untouched. -/
theorem C6_witness :
    decryptSensitiveFields (fun _ => none)
      (fun q => if q = "port" then some (PyValue.pyInt 5432)
                else if q = "password" then some (PyValue.pyStr "ENC:broken") else none)
      "port" =
    (fun q => if q = "port" then some (PyValue.pyInt 5432)
              else if q = "password" then some (PyValue.pyStr "ENC:broken") else none)
      "port" :=
  C6_vault_frame (fun _ => none)
    (fun q => if q = "port" then some (PyValue.pyInt 5432)
              else if q = "password" then some (PyValue.pyStr "ENC:broken") else none)
    "port" (by decide)

/-- Claim C10: for every table name and every conditions mapping
(including the empty one), `CRUD.update(table, {}, conditions)` with an
empty data mapping returns 0 and performs zero database round trips,
without raising: the empty-data check precedes the empty-conditions
validation. -/
theorem C10_update_empty_data_noop (placeholder : String)
    (exec : SQLCall → Except String Int) (table : String)
    (conditions : List (String × PyValue)) :
    CRUD.update placeholder exec table [] conditions = (Except.ok 0, []) := rfl

/-- Claim C1, counterexample: with empty data AND empty conditions,
`CRUD.update` returns 0 with no round trip instead of failing with a
validation error, so the claim as stated (for every data mapping) is
false at data = {}. -/
theorem C1_counterexample :
    CRUD.update "?" (fun _ => Except.ok 5) "clientes" [] [] = (Except.ok 0, []) ∧
    (CRUD.update "?" (fun _ => Except.ok 5) "clientes" [] []).1 ≠
      Except.error (CrudError.valueError updateEmptyCondMsg) := by
  constructor
  · rfl
  · intro h
    simp [CRUD.update] at h

/-- Claim C1, amended: for every table name and every NON-EMPTY data
mapping, `CRUD.update(table, data, {})` fails with the empty-conditions
`ValueError` and performs zero database round trips, and
`CRUD.delete(table, {})` always fails likewise with zero round trips. -/
theorem C1_amended_update_delete_empty_conditions :
    (∀ (placeholder : String) (exec : SQLCall → Except String Int)
       (table : String) (data : List (String × PyValue)), data ≠ [] →
       CRUD.update placeholder exec table data [] =
         (Except.error (CrudError.valueError updateEmptyCondMsg), [])) ∧
    (∀ (placeholder : String) (exec : SQLCall → Except String Int)
       (table : String),
       CRUD.delete placeholder exec table [] =
         (Except.error (CrudError.valueError deleteEmptyCondMsg), [])) := by
  constructor
  · intro placeholder exec table data hd
    cases data with
    | nil => exact absurd rfl hd
    | cons p ps => rfl
  · intro placeholder exec table
    rfl

/-- Claim C1, witness: the amended theorem evaluated at a concrete
non-empty data mapping. -/
theorem C1_amended_witness :
    CRUD.update "?" (fun _ => Except.ok 5) "clientes"
        [("nome", PyValue.pyStr "ana")] [] =
      (Except.error (CrudError.valueError updateEmptyCondMsg), []) ∧
    CRUD.delete "?" (fun _ => Except.ok 5) "clientes" [] =
      (Except.error (CrudError.valueError deleteEmptyCondMsg), []) :=
  ⟨C1_amended_update_delete_empty_conditions.1 "?" (fun _ => Except.ok 5)
      "clientes" [("nome", PyValue.pyStr "ana")] (by simp),
   C1_amended_update_delete_empty_conditions.2 "?" (fun _ => Except.ok 5)
      "clientes"⟩

namespace FirebirdConnector

/-- `FirebirdConnector.get_placeholder` (connectorDB.py lines 377-378;
connector_firebird.py line 19 sets the same value). -/
def get_placeholder : String := "?"

end FirebirdConnector

namespace MySQLConnector

/-- `MySQLConnector.get_placeholder` (connectorDB.py lines 659-660;
connector_mysql.py line 17 sets the same value). -/
def get_placeholder : String := "%s"

end MySQLConnector

namespace PostgreSQLConnector

/-- `PostgreSQLConnector.get_placeholder` (connectorDB.py lines 880-881;
connector_postgres.py line 17 sets the same value). -/
def get_placeholder : String := "%s"

end PostgreSQLConnector

/-- Number of (possibly overlapping) occurrence positions of `pat` in a
character list; for the placeholder patterns `?` and `%s`, which cannot
overlap themselves, this coincides with Python's `str.count`. -/
def countOccs (pat : List Char) : List Char → Nat
  | [] => 0
  | c :: rest => (if leadsWith pat (c :: rest) = true then 1 else 0) + countOccs pat rest

theorem joinSep_cons2 (sep x y : String) (ys : List String) :
    joinSep sep (x :: y :: ys) = x ++ sep ++ joinSep sep (y :: ys) := rfl

theorem countOccs_append_absent (p : Char) (ps a b : List Char) (h : p ∉ a) :
    countOccs (p :: ps) (a ++ b) = countOccs (p :: ps) b := by
  induction a with
  | nil => rfl
  | cons c a ih =>
      have h1 : p ≠ c := fun e => h (by simp [e])
      have h2 : p ∉ a := fun hm => h (by simp [hm])
      have hpc : (p == c) = false := beq_eq_false_iff_ne.mpr h1
      simp [countOccs, leadsWith, hpc, ih h2]

theorem countOccs_absent (p : Char) (ps a : List Char) (h : p ∉ a) :
    countOccs (p :: ps) a = 0 := by
  have h2 := countOccs_append_absent p ps a [] h
  simpa using h2

theorem countOccs_self_append (p : Char) (ps b : List Char) (hps : p ∉ ps) :
    countOccs (p :: ps) ((p :: ps) ++ b) = 1 + countOccs (p :: ps) b := by
  have hlead : leadsWith (p :: ps) (p :: (ps ++ b)) = true := by
    simp [leadsWith, leadsWith_append_self]
  simp [countOccs, hlead, countOccs_append_absent p ps ps b hps]

theorem joinSep_absent (p : Char) (sep : String) (hsep : p ∉ sep.data) :
    ∀ l : List String, (∀ x ∈ l, p ∉ x.data) → p ∉ (joinSep sep l).data := by
  intro l
  induction l with
  | nil => intro _ hm; simp [joinSep] at hm
  | cons x rest ih =>
      intro h
      cases rest with
      | nil => exact h x (by simp)
      | cons y ys =>
          rw [joinSep_cons2]
          intro hm
          rw [String.data_append, String.data_append] at hm
          rcases List.mem_append.mp hm with hm1 | hm2
          · rcases List.mem_append.mp hm1 with hm3 | hm4
            · exact h x (by simp) hm3
            · exact hsep hm4
          · exact ih (fun z hz => h z (by simp [hz])) hm2

/-- Counting the placeholder in the joined placeholder run of an INSERT:
`n` placeholders joined by a separator free of the leading character
contribute exactly `n`. -/
theorem countOccs_placeholders (ph : String) (p : Char) (ps : List Char)
    (hph : ph.data = p :: ps) (hps : p ∉ ps) (sep : String) (hsep : p ∉ sep.data) :
    ∀ n : Nat, n ≠ 0 → ∀ b : List Char,
      countOccs (p :: ps) ((joinSep sep (List.replicate n ph)).data ++ b) =
        n + countOccs (p :: ps) b := by
  intro n
  induction n with
  | zero => intro h; exact absurd rfl h
  | succ m ih =>
      intro _ b
      cases m with
      | zero =>
          have h1 : joinSep sep (List.replicate 1 ph) = ph := rfl
          rw [h1, hph, countOccs_self_append p ps b hps]
      | succ k =>
          have hrep : List.replicate (k + 2) ph = ph :: ph :: List.replicate k ph := rfl
          rw [hrep, joinSep_cons2, String.data_append, String.data_append]
          have ih2 := ih (Nat.succ_ne_zero k) b
          rw [show List.replicate (k + 1) ph = ph :: List.replicate k ph from rfl] at ih2
          rw [List.append_assoc, List.append_assoc, hph,
              countOccs_self_append p ps _ hps,
              countOccs_append_absent p ps sep.data _ hsep, ih2]
          omega

/-- Counting the placeholder in a joined run of `name = placeholder`
clauses: with names and separator free of the leading character, each
clause contributes exactly one occurrence. -/
theorem countOccs_clauses (ph : String) (p : Char) (ps : List Char)
    (hph : ph.data = p :: ps) (hps : p ∉ ps) (sep : String) (hsep : p ∉ sep.data)
    (heq : p ∉ (" = " : String).data) :
    ∀ names : List String, names ≠ [] → (∀ x ∈ names, p ∉ x.data) →
      ∀ b : List Char,
      countOccs (p :: ps)
          ((joinSep sep (names.map (fun k => k ++ " = " ++ ph))).data ++ b) =
        names.length + countOccs (p :: ps) b := by
  intro names
  induction names with
  | nil => intro h; exact absurd rfl h
  | cons x rest ih =>
      intro _ hnames b
      have hx : p ∉ x.data := hnames x (by simp)
      cases rest with
      | nil =>
          show countOccs (p :: ps) ((x ++ " = " ++ ph).data ++ b) =
            1 + countOccs (p :: ps) b
          rw [String.data_append, String.data_append,
              List.append_assoc, List.append_assoc, hph,
              countOccs_append_absent p ps x.data _ hx,
              countOccs_append_absent p ps (" = " : String).data _ heq,
              countOccs_self_append p ps b hps]
      | cons y ys =>
          have ih2 : countOccs (p :: ps)
              ((joinSep sep ((y ++ " = " ++ ph) ::
                 List.map (fun k => k ++ " = " ++ ph) ys)).data ++ b) =
              (y :: ys).length + countOccs (p :: ps) b :=
            ih (by simp) (fun z hz => hnames z (by simp [hz])) b
          show countOccs (p :: ps)
              ((joinSep sep ((x ++ " = " ++ ph) :: (y ++ " = " ++ ph) ::
                 List.map (fun k => k ++ " = " ++ ph) ys)).data ++ b) =
              (x :: y :: ys).length + countOccs (p :: ps) b
          rw [joinSep_cons2, String.data_append, String.data_append,
              String.data_append, String.data_append]
          rw [List.append_assoc, List.append_assoc, List.append_assoc,
              List.append_assoc, hph]
          rw [countOccs_append_absent p ps x.data _ hx,
              countOccs_append_absent p ps (" = " : String).data _ heq,
              countOccs_self_append p ps _ hps,
              countOccs_append_absent p ps sep.data _ hsep, ih2]
          simp
          omega

/-- Placeholder count of the generated INSERT statement. -/
theorem countOccs_createQuery (ph : String) (p : Char) (ps : List Char)
    (hph : ph.data = p :: ps) (hps : p ∉ ps)
    (hlit1 : p ∉ ("INSERT INTO " : String).data)
    (hlit2 : p ∉ (" (" : String).data)
    (hlit3 : p ∉ (") VALUES (" : String).data)
    (hlit4 : p ∉ (")" : String).data)
    (hsep : p ∉ (", " : String).data)
    (table : String) (htable : p ∉ table.data)
    (data : List (String × PyValue)) (hdata : data ≠ [])
    (hnames : ∀ kv ∈ data, p ∉ kv.1.data) :
    countOccs (p :: ps) (createQuery ph table data).data = data.length := by
  have hcols : p ∉ (joinSep ", " (data.map Prod.fst)).data :=
    joinSep_absent p ", " hsep (data.map Prod.fst)
      (fun x hx => by
        obtain ⟨kv, hkv, rfl⟩ := List.mem_map.mp hx
        exact hnames kv hkv)
  have hn : data.length ≠ 0 := fun h => hdata (List.length_eq_zero.mp h)
  show countOccs (p :: ps)
      ("INSERT INTO " ++ table ++ " (" ++ joinSep ", " (data.map Prod.fst) ++
        ") VALUES (" ++ joinSep ", " (List.replicate data.length ph) ++ ")").data =
      data.length
  simp only [String.data_append, List.append_assoc]
  rw [countOccs_append_absent p ps _ _ hlit1,
      countOccs_append_absent p ps _ _ htable,
      countOccs_append_absent p ps _ _ hlit2,
      countOccs_append_absent p ps _ _ hcols,
      countOccs_append_absent p ps _ _ hlit3,
      countOccs_placeholders ph p ps hph hps ", " hsep data.length hn (")" : String).data,
      countOccs_absent p ps _ hlit4]
  omega

/-- Placeholder count of the generated UPDATE statement. -/
theorem countOccs_updateQuery (ph : String) (p : Char) (ps : List Char)
    (hph : ph.data = p :: ps) (hps : p ∉ ps)
    (hupd : p ∉ ("UPDATE " : String).data)
    (hset : p ∉ (" SET " : String).data)
    (hwhere : p ∉ (" WHERE " : String).data)
    (hsep : p ∉ (", " : String).data)
    (handsep : p ∉ (" AND " : String).data)
    (heq : p ∉ (" = " : String).data)
    (table : String) (htable : p ∉ table.data)
    (data conditions : List (String × PyValue))
    (hd : data ≠ []) (hc : conditions ≠ [])
    (hdn : ∀ kv ∈ data, p ∉ kv.1.data) (hcn : ∀ kv ∈ conditions, p ∉ kv.1.data) :
    countOccs (p :: ps) (updateQuery ph table data conditions).data =
      data.length + conditions.length := by
  have hmapd : data.map (fun q => q.1 ++ " = " ++ ph) =
      (data.map Prod.fst).map (fun k => k ++ " = " ++ ph) := by
    rw [List.map_map]; rfl
  have hmapc : conditions.map (fun q => q.1 ++ " = " ++ ph) =
      (conditions.map Prod.fst).map (fun k => k ++ " = " ++ ph) := by
    rw [List.map_map]; rfl
  have hdnil : data.map Prod.fst ≠ [] := by
    cases data with
    | nil => exact absurd rfl hd
    | cons q qs => simp
  have hcnil : conditions.map Prod.fst ≠ [] := by
    cases conditions with
    | nil => exact absurd rfl hc
    | cons q qs => simp
  have hdn2 : ∀ x ∈ data.map Prod.fst, p ∉ x.data := fun x hx => by
    obtain ⟨kv, hkv, rfl⟩ := List.mem_map.mp hx
    exact hdn kv hkv
  have hcn2 : ∀ x ∈ conditions.map Prod.fst, p ∉ x.data := fun x hx => by
    obtain ⟨kv, hkv, rfl⟩ := List.mem_map.mp hx
    exact hcn kv hkv
  show countOccs (p :: ps)
      ("UPDATE " ++ table ++ " SET " ++
        joinSep ", " (data.map (fun q => q.1 ++ " = " ++ ph)) ++
        " WHERE " ++
        joinSep " AND " (conditions.map (fun q => q.1 ++ " = " ++ ph))).data =
      data.length + conditions.length
  rw [hmapd, hmapc]
  simp only [String.data_append, List.append_assoc]
  rw [countOccs_append_absent p ps _ _ hupd,
      countOccs_append_absent p ps _ _ htable,
      countOccs_append_absent p ps _ _ hset,
      countOccs_clauses ph p ps hph hps ", " hsep heq (data.map Prod.fst) hdnil hdn2,
      countOccs_append_absent p ps _ _ hwhere,
      show (joinSep " AND " ((conditions.map Prod.fst).map
          (fun k => k ++ " = " ++ ph))).data =
        (joinSep " AND " ((conditions.map Prod.fst).map
          (fun k => k ++ " = " ++ ph))).data ++ [] from (List.append_nil _).symm,
      countOccs_clauses ph p ps hph hps " AND " handsep heq
        (conditions.map Prod.fst) hcnil hcn2]
  simp [countOccs]

/-- With non-empty data, `CRUD.create` performs exactly one round trip,
carrying the generated INSERT and the data values. -/
theorem create_trace (ph : String) (exec : SQLCall → Except String Int)
    (table : String) (data : List (String × PyValue)) (hd : data ≠ []) :
    (CRUD.create ph exec table data).2 =
      [⟨createQuery ph table data, data.map Prod.snd⟩] := by
  cases data with
  | nil => exact absurd rfl hd
  | cons q qs =>
      cases hxe : exec ⟨createQuery ph table (q :: qs), q.2 :: qs.map Prod.snd⟩ with
      | ok n => simp [CRUD.create, hxe]
      | error e => simp [CRUD.create, hxe]

/-- With non-empty data and conditions, `CRUD.update` performs exactly
one round trip, carrying the generated UPDATE and the data values
followed by the condition values. -/
theorem update_trace (ph : String) (exec : SQLCall → Except String Int)
    (table : String) (data conditions : List (String × PyValue))
    (hd : data ≠ []) (hc : conditions ≠ []) :
    (CRUD.update ph exec table data conditions).2 =
      [⟨updateQuery ph table data conditions, updateParams data conditions⟩] := by
  cases data with
  | nil => exact absurd rfl hd
  | cons q qs =>
      cases conditions with
      | nil => exact absurd rfl hc
      | cons w ws =>
          cases hxe : exec ⟨updateQuery ph table (q :: qs) (w :: ws),
              updateParams (q :: qs) (w :: ws)⟩ with
          | ok n => simp [CRUD.update, hxe]
          | error e => simp [CRUD.update, hxe]

/-- The placeholder-count facts for both CRUD statement builders, for any
placeholder whose leading character stays out of the identifiers and the
fixed SQL punctuation. -/
theorem crud_counts_general (ph : String) (p : Char) (ps : List Char)
    (hph : ph.data = p :: ps) (hps : p ∉ ps)
    (h1 : p ∉ ("INSERT INTO " : String).data) (h2 : p ∉ (" (" : String).data)
    (h3 : p ∉ (") VALUES (" : String).data) (h4 : p ∉ (")" : String).data)
    (h5 : p ∉ (", " : String).data) (h6 : p ∉ (" = " : String).data)
    (h7 : p ∉ (" AND " : String).data) (h8 : p ∉ ("UPDATE " : String).data)
    (h9 : p ∉ (" SET " : String).data) (h10 : p ∉ (" WHERE " : String).data)
    (table : String) (htable : p ∉ table.data)
    (data conditions : List (String × PyValue))
    (hdn : ∀ kv ∈ data, p ∉ kv.1.data) (hcn : ∀ kv ∈ conditions, p ∉ kv.1.data)
    (exec : SQLCall → Except String Int) :
    (data ≠ [] →
       (CRUD.create ph exec table data).2 =
         [⟨createQuery ph table data, data.map Prod.snd⟩] ∧
       countOccs ph.data (createQuery ph table data).data =
         (data.map Prod.snd).length) ∧
    (data ≠ [] → conditions ≠ [] →
       (CRUD.update ph exec table data conditions).2 =
         [⟨updateQuery ph table data conditions, updateParams data conditions⟩] ∧
       countOccs ph.data (updateQuery ph table data conditions).data =
         (updateParams data conditions).length) := by
  constructor
  · intro hd
    refine ⟨create_trace ph exec table data hd, ?_⟩
    rw [hph, countOccs_createQuery ph p ps hph hps h1 h2 h3 h4 h5 table htable
          data hd hdn]
    simp
  · intro hd hc
    refine ⟨update_trace ph exec table data conditions hd hc, ?_⟩
    rw [hph, countOccs_updateQuery ph p ps hph hps h8 h9 h10 h5 h7 h6 table htable
          data conditions hd hc hdn hcn]
    simp [updateParams]

/-- Claim C5, counterexample: the original claim quantifies over every
non-empty fields mapping; with the Firebird placeholder `?` and the
column name `a?b`, the generated INSERT contains two placeholder
occurrences while the parameter tuple has length one. -/
theorem C5_counterexample :
    countOccs ("?" : String).data
        (createQuery "?" "t" [("a?b", PyValue.pyInt 1)]).data = 2 ∧
    ([("a?b", PyValue.pyInt 1)].map Prod.snd).length = 1 :=
  ⟨by decide, rfl⟩

/-- Claim C5, amended: `get_placeholder()` returns `?` for the Firebird
connector and `%s` for the MySQL and PostgreSQL connectors; and for
every non-empty fields mapping (and, for update, non-empty conditions)
whose table and column names avoid the placeholder's leading character
(`?` resp. `%`), `CRUD.create` and `CRUD.update` perform exactly one
`execute_update` round trip whose SQL contains exactly as many
placeholder occurrences as the length of the parameter tuple passed
along. -/
theorem C5_amended_placeholder_counts :
    (FirebirdConnector.get_placeholder = "?" ∧
     MySQLConnector.get_placeholder = "%s" ∧
     PostgreSQLConnector.get_placeholder = "%s") ∧
    (∀ ph : String, ph = "?" ∨ ph = "%s" →
     ∀ (p : Char) (ps : List Char), ph.data = p :: ps →
     ∀ table : String, p ∉ table.data →
     ∀ data conditions : List (String × PyValue),
       (∀ kv ∈ data, p ∉ kv.1.data) →
       (∀ kv ∈ conditions, p ∉ kv.1.data) →
       ∀ exec : SQLCall → Except String Int,
       (data ≠ [] →
          (CRUD.create ph exec table data).2 =
            [⟨createQuery ph table data, data.map Prod.snd⟩] ∧
          countOccs ph.data (createQuery ph table data).data =
            (data.map Prod.snd).length) ∧
       (data ≠ [] → conditions ≠ [] →
          (CRUD.update ph exec table data conditions).2 =
            [⟨updateQuery ph table data conditions, updateParams data conditions⟩] ∧
          countOccs ph.data (updateQuery ph table data conditions).data =
            (updateParams data conditions).length)) := by
  refine ⟨⟨rfl, rfl, rfl⟩, ?_⟩
  intro ph hor p ps hph table htable data conditions hdn hcn exec
  rcases hor with rfl | rfl
  · have h0 : ("?" : String).data = ['?'] := rfl
    rw [h0] at hph
    injection hph with hp hps0
    subst hp
    subst hps0
    exact crud_counts_general "?" '?' [] rfl (by decide) (by decide) (by decide)
      (by decide) (by decide) (by decide) (by decide) (by decide) (by decide)
      (by decide) (by decide) table htable data conditions hdn hcn exec
  · have h0 : ("%s" : String).data = ['%', 's'] := rfl
    rw [h0] at hph
    injection hph with hp hps0
    subst hp
    subst hps0
    exact crud_counts_general "%s" '%' ['s'] rfl (by decide) (by decide) (by decide)
      (by decide) (by decide) (by decide) (by decide) (by decide) (by decide)
      (by decide) (by decide) table htable data conditions hdn hcn exec

/-- Claim C5, witness: the amended theorem evaluated at concrete INSERT
and UPDATE calls for both placeholder styles. -/
theorem C5_amended_witness :
    (CRUD.create "?" (fun _ => Except.ok 1) "clientes"
        [("nome", PyValue.pyStr "ana"), ("idade", PyValue.pyInt 30)]).2 =
      [⟨createQuery "?" "clientes"
          [("nome", PyValue.pyStr "ana"), ("idade", PyValue.pyInt 30)],
        [("nome", PyValue.pyStr "ana"), ("idade", PyValue.pyInt 30)].map Prod.snd⟩] ∧
    countOccs ("?" : String).data
        (createQuery "?" "clientes"
          [("nome", PyValue.pyStr "ana"), ("idade", PyValue.pyInt 30)]).data =
      ([("nome", PyValue.pyStr "ana"), ("idade", PyValue.pyInt 30)].map Prod.snd).length ∧
    countOccs ("%s" : String).data
        (updateQuery "%s" "clientes" [("nome", PyValue.pyStr "ana")]
          [("id", PyValue.pyInt 7)]).data =
      (updateParams [("nome", PyValue.pyStr "ana")] [("id", PyValue.pyInt 7)]).length :=
  ⟨((C5_amended_placeholder_counts.2 "?" (Or.inl rfl) '?' [] rfl "clientes"
      (by decide) [("nome", PyValue.pyStr "ana"), ("idade", PyValue.pyInt 30)] []
      (by decide) (by decide) (fun _ => Except.ok 1)).1 (by simp)).1,
   ((C5_amended_placeholder_counts.2 "?" (Or.inl rfl) '?' [] rfl "clientes"
      (by decide) [("nome", PyValue.pyStr "ana"), ("idade", PyValue.pyInt 30)] []
      (by decide) (by decide) (fun _ => Except.ok 1)).1 (by simp)).2,
   ((C5_amended_placeholder_counts.2 "%s" (Or.inr rfl) '%' ['s'] rfl "clientes"
      (by decide) [("nome", PyValue.pyStr "ana")] [("id", PyValue.pyInt 7)]
      (by decide) (by decide) (fun _ => Except.ok 1)).2 (by simp) (by simp)).2⟩
